import Mathlib

/- Shallow embedding of the conversation/generation engine of the
   chatgpt-discord-bot repository (src/conversation/conversation.ts), the
   history persistence helpers, the cooldown computation, and the summarizer
   prompt builder (SummarizeCommand.buildSummarizerPrompt). -/

/-- Modelled from the spec: the kind of a response message. The file
`chat/types/message.js` is not in the source tree; `conversation.ts` only uses
the member `Notice`, and the spec speaks of "text/other types". -/
inductive MessageType where
  | Chat
  | Notice
  deriving DecidableEq

/-- A byte of binary image data. -/
abbrev Byte := Fin 256

/-- Modelled from the spec: `ImageBuffer` (`chat/types/image.js` is not in the
source tree) holds binary image data. The spec says "Image payloads within
`output` are stored as a reversible textual encoding and must be converted back
to binary form on load"; we model the reversible textual encoding as the string
whose characters are the code points of the bytes. -/
structure ImageBuffer where
  data : List Byte
  deriving DecidableEq

/-- The textual encoding of an image buffer (`i.data.toString()` in the source). -/
def ImageBuffer.toText (b : ImageBuffer) : String :=
  ⟨b.data.map (fun v => Char.ofNat v.val)⟩

/-- Decoding a stored textual payload back into binary form
(`ImageBuffer.load(i.data)` in the source). -/
def ImageBuffer.load (s : String) : ImageBuffer :=
  ⟨s.data.map (fun c => ⟨c.toNat % 256, Nat.mod_lt _ (by decide)⟩)⟩

/-- Modelled from the spec: an image attached to a generated response message. -/
structure ChatOutputImage where
  data : ImageBuffer
  deriving DecidableEq

/-- The persisted shape of an output image: binary data replaced by its
textual encoding. -/
structure DatabaseOutputImage where
  data : String
  deriving DecidableEq

/-- Modelled from the spec: the generated response message
(`chat/types/message.js` is missing); fields as used by `conversation.ts`:
an identifier, a kind, the text and optional attached images. -/
structure ResponseMessage where
  id : String
  type : MessageType
  text : String
  images : Option (List ChatOutputImage)
  deriving DecidableEq

/-- A response message as stored in the durable store: identical except that
image payloads are textual. -/
structure DatabaseResponseMessage where
  id : String
  type : MessageType
  text : String
  images : Option (List DatabaseOutputImage)
  deriving DecidableEq

/-- Modelled from the spec: a text document attached to the input
(`chat/types/document.js` is not in the source tree). -/
structure ChatDocument where
  name : String
  content : String
  deriving DecidableEq

/-- Modelled from the spec: an image attached to the user input. -/
structure ChatInputImage where
  data : ImageBuffer
  deriving DecidableEq

/-- `ChatInput` from `conversation.ts`: the input message itself, plus optional
attached documents and images. -/
structure ChatInput where
  content : String
  documents : Option (List ChatDocument)
  images : Option (List ChatInputImage)
  deriving DecidableEq

/-- Modelled from the spec: the content-safety verdict, treated as opaque by
the core except for the `blocked` flag. -/
structure ModerationResult where
  blocked : Bool
  deriving DecidableEq

/-- `ChatInteraction` from `conversation.ts`. Discord message handles are
modelled by their identifiers; `trigger` is nullable here because rehydrated
entries store `null` for it. -/
structure ChatInteraction where
  input : ChatInput
  output : ResponseMessage
  moderation : Option ModerationResult
  trigger : Option String
  reply : Option String
  time : Nat
  deriving DecidableEq

/-- `ChatGeneratedInteraction`: an interaction plus the number of tries it
took to generate the response. -/
structure ChatGeneratedInteraction extends ChatInteraction where
  tries : Nat
  deriving DecidableEq

/-- `ChatClientResult` (`chat/client.js` is not in the source tree): the value
returned by the generation transport, as used by `generate()`: an input and an
output message. -/
structure ChatClientResult where
  input : ChatInput
  output : ResponseMessage
  deriving DecidableEq

/-- `GPTGenerationErrorType` (`error/gpt/generation.js` is not in the source
tree): modelled from the spec's error taxonomy and the members used by the
sources: `Busy`, `SessionUnusable`, `Empty`, `Length`, `Other`. -/
inductive GPTGenerationErrorType where
  | Busy
  | SessionUnusable
  | Empty
  | Length
  | Other
  deriving DecidableEq

/-- The universe of JavaScript error values the retry loop can catch,
classified exactly by the `instanceof` checks `generate()` performs:
`GPTGenerationError` (with its `options.data.type` and optional
`options.data.cause`), `GPTAPIError` (with its `options.data.id` and the
result of `isServerSide()`), `TypeError`, and any other error. -/
inductive AnyError where
  | genError (type : GPTGenerationErrorType) (cause : Option AnyError)
  | apiError (id : Option String) (serverSide : Bool)
  | typeError (msg : String)
  | otherError (msg : String)

/-- The reduced shape of a history entry in the durable store: only `id`,
`input` and `output` (lines 399-403 of `conversation.ts`). -/
structure DatabaseHistoryEntry where
  id : String
  input : ChatInput
  output : DatabaseResponseMessage
  deriving DecidableEq

/-- `Conversation.responseMessageToDatabase`: keep every field, encode image
payloads as text (the `images ? ... : undefined` ternary becomes `Option.map`). -/
def responseMessageToDatabase (message : ResponseMessage) : DatabaseResponseMessage :=
  { id := message.id, type := message.type, text := message.text,
    images := message.images.map (fun l => l.map (fun i => { data := i.data.toText })) }

/-- `Conversation.databaseToResponseMessage`: keep every field, decode the
textual image payloads back into binary buffers. -/
def databaseToResponseMessage (message : DatabaseResponseMessage) : ResponseMessage :=
  { id := message.id, type := message.type, text := message.text,
    images := message.images.map (fun l => l.map (fun i => { data := ImageBuffer.load i.data })) }

/-- The reduced entry persisted for one history element
(`{ id: entry.output.id, input: entry.input, output: responseMessageToDatabase(entry.output) }`). -/
def historyEntryToDatabase (entry : ChatInteraction) : DatabaseHistoryEntry :=
  { id := entry.output.id, input := entry.input,
    output := responseMessageToDatabase entry.output }

/-- `Conversation.loadFromDatabase`, restricted to a single stored entry
(lines 153-164): input is taken verbatim, output is decoded, the ephemeral
fields are `null`, the time is the load time. -/
def loadHistoryEntry (entry : DatabaseHistoryEntry) (now : Nat) : ChatInteraction :=
  { input := entry.input, output := databaseToResponseMessage entry.output,
    reply := none, time := now, trigger := none, moderation := none }

/-- `CONVERSATION_ERROR_RETRY_MAX_TRIES` (line 59): how many tries to allow
after an error occurred during generation. -/
def CONVERSATION_ERROR_RETRY_MAX_TRIES : Nat := 10

/-- The session-unusable test of lines 332-335: a `GPTAPIError` whose id is
`insufficient_quota` or `access_terminated`, or a `GPTGenerationError` of type
`SessionUnusable`. -/
def isSessionUnusableSignal : AnyError → Bool
  | .apiError id _ => id == some "insufficient_quota" || id == some "access_terminated"
  | .genError t _ => t == .SessionUnusable
  | _ => false

/-- The rate-limit / transient test of line 341: a `GPTAPIError` whose id is
`requests` or `invalid_request_error`, or a `TypeError`. -/
def isRetryable : AnyError → Bool
  | .apiError id _ => id == some "requests" || id == some "invalid_request_error"
  | .typeError _ => true
  | _ => false

/-- The instantly-fatal test of line 348: a `GPTGenerationError` with a cause
that is not a `GPTAPIError`, or a client-side `GPTAPIError`. -/
def isFatalCause : AnyError → Bool
  | .genError _ (some (.apiError _ _)) => false
  | .genError _ (some _) => true
  | .apiError _ serverSide => !serverSide
  | _ => false

/-- The test of line 354: a `GPTGenerationError` of type `Empty` or `Length`. -/
def isEmptyOrLength : AnyError → Bool
  | .genError t _ => t == .Empty || t == .Length
  | _ => false

/-- Whether the error is one of the two recognized error kinds
(`error instanceof GPTGenerationError || error instanceof GPTAPIError`,
line 313). -/
def isRecognizedErrorKind : AnyError → Bool
  | .genError _ _ => true
  | .apiError _ _ => true
  | _ => false

/-- The error thrown when the retries are exhausted (lines 313-319): a
recognized error kind is re-thrown unchanged, anything else is wrapped as an
`Other` generation error with the original error as its cause. -/
def exhaustedError (error : AnyError) : AnyError :=
  if isRecognizedErrorKind error then error
  else .genError .Other (some error)

/-- One observable side effect of a `generate()` call, in program order. -/
inductive Effect where
  /-- `clearTimeout(this.timer)` at the start of `generate()` (line 287). -/
  | clearTimer
  /-- The `logger.warn` retry log (line 322); carries the try counter. -/
  | warnLog (tries : Nat)
  /-- The `options.onProgress` retry notice (lines 325-328); carries the try
  counter shown in the notice text. -/
  | progressNotice (tries : Nat)
  /-- The backoff `setTimeout` wait (line 343), in milliseconds. -/
  | delayMs (ms : Nat)
  /-- `applyResetTimer()` on the success path (line 366). -/
  | resetTimer
  /-- The moderation `check` on the generated output (lines 372-380); carries
  the checked content. -/
  | moderationCheck (content : String)
  /-- The in-memory history mutation inside `pushToHistory` (line 489);
  carries the new history. -/
  | pushHistory (newHistory : List ChatInteraction)
  /-- The cluster broadcast inside `pushToHistory` (lines 492-507); carries
  the stripped payload. -/
  | broadcast (payload : List ChatInteraction)
  /-- The durable `updateConversation` write of the reduced history
  (lines 397-404). -/
  | persistHistory (entries : List DatabaseHistoryEntry)
  /-- The durable `updateInteraction` audit write (lines 407-420); carries the
  output id. -/
  | auditInsert (id : String)
  /-- `this.cooldown.use(cooldown)` (line 426); carries the duration. -/
  | armCooldown (ms : Int)
  deriving DecidableEq

/-- What the `catch` block decides to do after classifying one failure. -/
inductive CatchAction where
  /-- Throw the retries-exhausted error; `this.generating` was cleared. -/
  | throwExhausted (error : AnyError)
  /-- Throw a fresh `SessionUnusable` generation error; the source does NOT
  clear `this.generating` on this path (line 336). -/
  | throwSessionUnusable
  /-- Clear `this.generating` and re-throw the error (lines 349-350, 355-356). -/
  | throwFatal (error : AnyError)
  /-- Fall through and run the loop again (after the backoff wait, if any). -/
  | retry

/-- The body of the `catch` block of `generate()` (lines 306-359), as a pure
function of the caught error and the already-incremented try counter. Returns
the effects the block performs and the control-flow decision, in source order:
the exhausted check (throwing before anything else when `tries` has reached
the maximum), then the warn/notice effects, then the session-unusable check,
the rate-limit backoff, the fatal-cause check, and the Empty/Length check;
any error matching none of them falls through and is retried immediately. -/
def handleError (error : AnyError) (tries : Nat) : List Effect × CatchAction :=
  if tries = CONVERSATION_ERROR_RETRY_MAX_TRIES then
    ([], .throwExhausted (exhaustedError error))
  else
    let noticeEffects : List Effect := [.warnLog tries, .progressNotice tries]
    if isSessionUnusableSignal error then
      (noticeEffects, .throwSessionUnusable)
    else if isRetryable error then
      (noticeEffects ++ [.delayMs ((tries * 5 + 5) * 1000)], .retry)
    else if isFatalCause error then
      (noticeEffects, .throwFatal error)
    else if isEmptyOrLength error then
      (noticeEffects, .throwFatal error)
    else
      (noticeEffects, .retry)

/-- The result of the retry loop: either generated data together with the
final try counter, or a thrown error together with the value the `generating`
flag has at the moment of the throw. -/
inductive LoopResult where
  | ok (data : ChatClientResult) (tries : Nat)
  | thrown (error : AnyError) (generating : Bool)

/-- The do/while retry loop of `generate()` (lines 301-360). The generation
transport (`this.manager.session.generate`) is scripted as a function from the
current try counter to a result. The loop never runs more than
`CONVERSATION_ERROR_RETRY_MAX_TRIES` iterations because the exhausted check
throws when the counter reaches the maximum, so the structural `remaining`
argument (instantiated with the maximum) never reaches zero from `generate`;
the loop condition `tries < max && data === null && this.generating` is
subsumed by the recursion structure: the loop body only falls through to the
next iteration when no data was produced and nothing was thrown, and nothing
inside the loop clears `this.generating` without throwing. -/
def runAttempts (transport : Nat → Except AnyError ChatClientResult) :
    Nat → Nat → List Effect × LoopResult
  | 0, _ => ([], .thrown (.otherError "unreachable") false)
  | remaining + 1, tries =>
    match transport tries with
    | .ok data => ([], .ok data tries)
    | .error e =>
      let t := tries + 1
      let effects := (handleError e t).1
      match (handleError e t).2 with
      | .throwExhausted e2 => (effects, .thrown e2 false)
      | .throwSessionUnusable =>
        (effects, .thrown (.genError .SessionUnusable none) true)
      | .throwFatal e2 => (effects, .thrown e2 false)
      | .retry =>
        let rest := runAttempts transport remaining t
        (effects ++ rest.1, rest.2)

/-- Subscription tier of a user, as returned by
`this.manager.bot.db.users.subscriptionType(db)`. -/
inductive SubscriptionType where
  | Free
  | Voter
  | GuildPremium
  | UserPremium
  deriving DecidableEq

/-- `CONVERSATION_COOLDOWN_MODIFIER` (lines 62-67). -/
def CONVERSATION_COOLDOWN_MODIFIER : SubscriptionType → ℚ
  | .Free => 1
  | .Voter => 1 / 2
  | .GuildPremium => 15 / 100
  | .UserPremium => 9 / 100

/-- `CONVERSATION_DEFAULT_COOLDOWN.time` (line 70): 110 * 1000 milliseconds. -/
def CONVERSATION_DEFAULT_COOLDOWN_TIME : ℚ := 110 * 1000

/-- `RestrictionType` (`db/types/restriction.js` is not in the source tree):
modelled from the member `PremiumOnly` used by `cooldownTime` and the other
restriction kinds named by the sources (voter-gated commands). -/
inductive RestrictionType where
  | premiumOnly
  | voterOnly
  | testerOnly
  deriving DecidableEq

/-- `CooldownModifier` as used on a chat model's options: an optional duration
override and an optional multiplier. -/
structure CooldownModifier where
  time : Option ℚ
  multiplier : Option ℚ
  deriving DecidableEq

/-- The slice of `ChatSettingsModel.options` read by `cooldownTime`
(`conversation/settings/model.js` is not in the source tree; modelled from the
accesses `model.options.cooldown.time`, `model.options.cooldown.multiplier`
and `model.options.restricted`). -/
structure ChatSettingsModelOptions where
  cooldown : Option CooldownModifier
  restricted : Option RestrictionType
  deriving DecidableEq

/-- The slice of a chat settings model needed by `cooldownTime`. -/
structure ChatSettingsModel where
  options : ChatSettingsModelOptions
  deriving DecidableEq

/-- JavaScript truthiness of an optional number: `undefined`, `null` and `0`
are falsy. -/
def truthyNum : Option ℚ → Bool
  | some q => q != 0
  | none => false

/-- The condition `model.options.cooldown && model.options.cooldown.time &&
model.options.restricted === RestrictionType.PremiumOnly`, which guards both
the base modifier and the base duration ternaries of `cooldownTime`. -/
def premiumOverrideActive (model : ChatSettingsModel) : Bool :=
  (match model.options.cooldown with
   | some cd => truthyNum cd.time
   | none => false)
  && (model.options.restricted == some .premiumOnly)

/-- The model's configured cooldown override duration, when present. -/
def modelCooldownTime (model : ChatSettingsModel) : Option ℚ :=
  match model.options.cooldown with
  | some cd => cd.time
  | none => none

/-- The tone multiplier: `model.options.cooldown && model.options.cooldown.multiplier
? model.options.cooldown.multiplier : 1` (lines 441-443). -/
def toneMultiplier (model : ChatSettingsModel) : ℚ :=
  match model.options.cooldown with
  | some cd => match cd.multiplier with
    | some m => if m != 0 then m else 1
    | none => 1
  | none => 1

/-- `Math.round` of JavaScript: round half toward positive infinity, i.e. the
floor of `q + 1/2`. -/
def jsRound (q : ℚ) : ℤ := ⌊q + 1 / 2⌋

/-- `Conversation.cooldownTime` (lines 434-451). `defaultTime` stands for
`this.cooldown.options.time`, the conversation's configured base duration. -/
def cooldownTime (defaultTime : ℚ) (model : ChatSettingsModel)
    (sub : SubscriptionType) : ℤ :=
  let baseModifier : ℚ :=
    if premiumOverrideActive model then 1 else CONVERSATION_COOLDOWN_MODIFIER sub
  let toneModifier : ℚ := toneMultiplier model
  let baseDuration : ℚ :=
    if premiumOverrideActive model then (modelCooldownTime model).getD 0
    else defaultTime
  jsRound (baseDuration * baseModifier * toneModifier)

/-- The strip applied to each history entry before it is broadcast to the
other clusters: `{ ...e, trigger: null, reply: null }` (line 504). -/
def stripForBroadcast (e : ChatInteraction) : ChatInteraction :=
  { e with trigger := none, reply := none }

/-- `Conversation.pushToHistory` (lines 487-508), as a pure function from the
current history and the optional new entry to the new local history and the
payload broadcast to the other clusters. -/
def pushToHistory (history : List ChatInteraction) (entry : Option ChatInteraction) :
    List ChatInteraction × List ChatInteraction :=
  let newHistory := match entry with
    | some e => history ++ [e]
    | none => history
  (newHistory, newHistory.map stripForBroadcast)

/-- The mutable per-conversation state touched by `generate()`. `cooldownBaseTime`
stands for `this.cooldown.options.time` and `userId` for `this.user.id`. -/
structure Conversation where
  active : Bool
  generating : Bool
  history : List ChatInteraction
  cooldownBaseTime : ℚ
  userId : String

/-- The inputs of one `generate()` call that the embedding leaves abstract:
the scripted generation transport, the trigger message id, the verdict of the
external moderation `check` on the output, the clock value used for the new
interaction, the development flag `this.manager.bot.dev`, the owner allow-list
`this.manager.bot.app.config.discord.owner`, and the user's model, tone-bearing
settings and subscription tier used by `cooldownTime`. -/
structure GenerateArgs where
  transport : Nat → Except AnyError ChatClientResult
  trigger : String
  moderation : Option ModerationResult
  now : Nat
  dev : Bool
  ownerIds : List String
  model : ChatSettingsModel
  sub : SubscriptionType

/-- The observable outcome of one `generate()` call: the conversation state
after the call settles, the ordered trace of side effects it performed, and
the value it returns or the error it throws. -/
structure GenerateOutput where
  conv : Conversation
  trace : List Effect
  outcome : Except AnyError ChatGeneratedInteraction

/-- `Conversation.generate` (lines 281-432). In source order: the inactive
check, the busy check, locking `this.generating` and clearing the idle timer,
the retry loop, and — on success — unlocking, re-arming the reset timer, the
moderation check, assembling the interaction, `pushToHistory`, persisting the
reduced history, the audit insert (skipped in dev mode), and arming the
cooldown (skipped for owners). On a throw from the loop the `generating` flag
keeps whatever value the throwing path left it. -/
def generate (c : Conversation) (args : GenerateArgs) : GenerateOutput :=
  if !c.active then
    ⟨c, [], .error (.otherError "Conversation is inactive")⟩
  else if c.generating then
    ⟨c, [], .error (.genError .Busy none)⟩
  else
    let c1 : Conversation := { c with generating := true }
    let loop := runAttempts args.transport CONVERSATION_ERROR_RETRY_MAX_TRIES 0
    match loop.2 with
    | .thrown e g =>
      ⟨{ c1 with generating := g }, .clearTimer :: loop.1, .error e⟩
    | .ok data tries =>
      let c2 : Conversation := { c1 with generating := false }
      let result : ChatInteraction :=
        { input := data.input, output := data.output,
          trigger := some args.trigger, reply := none,
          moderation := args.moderation, time := args.now }
      let pushed := pushToHistory c2.history (some result)
      let c3 : Conversation := { c2 with history := pushed.1 }
      let reduced := c3.history.map historyEntryToDatabase
      let cooldown : ℤ := cooldownTime c.cooldownBaseTime args.model args.sub
      let successTrace : List Effect :=
        [.resetTimer, .moderationCheck data.output.text,
         .pushHistory pushed.1, .broadcast pushed.2, .persistHistory reduced]
        ++ (if args.dev then [] else [.auditInsert result.output.id])
        ++ (if c.userId ∈ args.ownerIds then [] else [.armCooldown cooldown])
      ⟨c3, .clearTimer :: (loop.1 ++ successTrace),
       .ok { result with tries := tries }⟩

/-- A YouTube subtitle chunk; `buildSummarizerPrompt` only reads its
`content`. -/
structure YouTubeSubtitle where
  content : String
  deriving DecidableEq

/-- An OpenAI chat message as assembled by the summarizer. -/
structure OpenAIChatMessage where
  role : String
  content : String
  deriving DecidableEq

/-- `SummaryPrompt`: the assembled messages and their total token count. -/
structure SummaryPrompt where
  messages : List OpenAIChatMessage
  tokens : Nat
  deriving DecidableEq

/-- The two messages `buildSummarizerPrompt` assembles: the system message
(whose text depends only on the video, the summary type and the user's
language, so it is constant across the truncation recursion and is passed in
here as `sys`) and the assistant message holding all subtitles joined with a
single space. -/
def summarizerMessages (sys : String) (subtitles : List YouTubeSubtitle) :
    List OpenAIChatMessage :=
  [{ role := "system", content := sys },
   { role := "assistant", content := String.intercalate " " (subtitles.map (fun s => s.content)) }]

/-- `SummarizeCommand.buildSummarizerPrompt` (part_000, lines 134-173).
`count` stands for `countChatMessageTokens` (`conversation/utils/length.js` is
not in the source tree, so the token counter is an abstract parameter). The
checks mirror the source order: if the prompt exceeds 4000 tokens and no
subtitles are left, raise a `Length` generation error; if it merely exceeds
4000 tokens, re-run the builder after `arr.pop()`, which removes the LAST
subtitle of the array. -/
def buildSummarizerPrompt (count : List OpenAIChatMessage → Nat) (sys : String)
    (subtitles : List YouTubeSubtitle) : Except GPTGenerationErrorType SummaryPrompt :=
  let messages := summarizerMessages sys subtitles
  let tokens := count messages
  if 4000 < tokens ∧ subtitles.length = 0 then
    .error .Length
  else if 4000 < tokens then
    buildSummarizerPrompt count sys subtitles.dropLast
  else
    .ok { messages := messages, tokens := tokens }
termination_by subtitles.length
decreasing_by
  simp only [List.length_dropLast]
  omega

/-- The truncation step as the spec words it, for comparison with the source:
"drop oldest content chunk and retry token-budget check" — identical to
`buildSummarizerPrompt` except that the recursion drops the FIRST (oldest)
subtitle instead of the last one. -/
def buildSummarizerPromptDropOldest (count : List OpenAIChatMessage → Nat) (sys : String)
    (subtitles : List YouTubeSubtitle) : Except GPTGenerationErrorType SummaryPrompt :=
  let messages := summarizerMessages sys subtitles
  let tokens := count messages
  if 4000 < tokens ∧ subtitles.length = 0 then
    .error .Length
  else if 4000 < tokens then
    buildSummarizerPromptDropOldest count sys subtitles.tail
  else
    .ok { messages := messages, tokens := tokens }
termination_by subtitles.length
decreasing_by
  simp only [List.length_tail]
  omega

/-- Sample fixtures used by the concrete instantiations below. -/
def sampleInput : ChatInput := { content := "hi", documents := none, images := none }

def sampleOutput : ResponseMessage :=
  { id := "msg-1", type := .Chat, text := "hello there", images := none }

def sampleData : ChatClientResult := { input := sampleInput, output := sampleOutput }

def sampleConversation : Conversation :=
  { active := true, generating := false, history := [],
    cooldownBaseTime := CONVERSATION_DEFAULT_COOLDOWN_TIME, userId := "user-1" }

def sampleArgs : GenerateArgs :=
  { transport := fun _ => .ok sampleData, trigger := "trigger-1",
    moderation := some { blocked := false }, now := 1000, dev := false,
    ownerIds := [], model := { options := { cooldown := none, restricted := none } },
    sub := .Free }

def busyConversation : Conversation := { sampleConversation with generating := true }

/-- An error the catch block absorbs (neither throws on nor escalates): it is
not a session-unusable signal, not an instantly-fatal cause, and not an
Empty/Length generation error; such an error leads to another loop iteration
(with or without a backoff wait). -/
def isAbsorbed (e : AnyError) : Bool :=
  !(isSessionUnusableSignal e) && !(isFatalCause e) && !(isEmptyOrLength e)

def exhaustedErrs : Nat → AnyError := fun n =>
  if n < 9 then .apiError (some "requests") true else .otherError "boom"

def exhaustedArgs : GenerateArgs :=
  { sampleArgs with transport := fun n => .error (exhaustedErrs n) }

/-- Whether a thrown error is a `SessionUnusable` generation error, i.e. what
a caller rotating sessions out of the pool would test for. -/
def isSessionUnusableGenError : AnyError → Bool
  | .genError t _ => t == .SessionUnusable
  | _ => false

def lastAttemptQuotaErrs : Nat → AnyError := fun n =>
  if n < 9 then .apiError (some "requests") true
  else .apiError (some "insufficient_quota") true

def lastAttemptQuotaArgs : GenerateArgs :=
  { sampleArgs with transport := fun n => .error (lastAttemptQuotaErrs n) }

def firstAttemptQuotaArgs : GenerateArgs :=
  { sampleArgs with transport := fun _ => .error (.apiError (some "insufficient_quota") true) }

/-- Effects that can occur inside the retry loop: retry logs, retry notices
and backoff waits. -/
def isLoopEffect : Effect → Bool
  | .warnLog _ => true
  | .progressNotice _ => true
  | .delayMs _ => true
  | _ => false

/-- The durable-persistence effect discriminator. -/
def isPersistEffect : Effect → Bool
  | .persistHistory _ => true
  | _ => false

/-- The cooldown-arming effect discriminator. -/
def isArmEffect : Effect → Bool
  | .armCooldown _ => true
  | _ => false

/-- The interaction record assembled on the success path of `generate()`
(lines 382-391). -/
def successInteraction (args : GenerateArgs) (data : ChatClientResult) : ChatInteraction :=
  { input := data.input, output := data.output, trigger := some args.trigger,
    reply := none, moderation := args.moderation, time := args.now }

/-- The effects `generate()` performs after the loop succeeds, in source
order: re-arm the reset timer, moderation check, history push, cluster
broadcast, durable persistence of the reduced history, the audit insert
(skipped in dev mode), and arming the cooldown (skipped for owners). -/
def successEffects (c : Conversation) (args : GenerateArgs) (data : ChatClientResult) :
    List Effect :=
  [.resetTimer, .moderationCheck data.output.text,
   .pushHistory (c.history ++ [successInteraction args data]),
   .broadcast ((c.history ++ [successInteraction args data]).map stripForBroadcast),
   .persistHistory ((c.history ++ [successInteraction args data]).map historyEntryToDatabase)]
  ++ (if args.dev then [] else [.auditInsert data.output.id])
  ++ (if c.userId ∈ args.ownerIds then []
      else [.armCooldown (cooldownTime c.cooldownBaseTime args.model args.sub)])


/-- A model with a configured cooldown override duration (10000 ms) that is
not premium-restricted. -/
def overrideNotRestrictedModel : ChatSettingsModel :=
  { options := { cooldown := some { time := some 10000, multiplier := none },
                 restricted := none } }

/-- A token counter making each character of message content cost 2001
tokens, used to exercise the summarizer truncation on tiny inputs. -/
def lengthWeightedTokens : List OpenAIChatMessage → Nat :=
  fun ms => (ms.map (fun m => 2001 * m.content.length)).sum

/-- A two-chunk transcript: the oldest chunk is "a", the newest is "b". -/
def twoChunkSubtitles : List YouTubeSubtitle := [{ content := "a" }, { content := "b" }]


/-- Helper for evaluating `jsRound` at concrete rational arguments. -/
theorem jsRound_eq_of_bounds (q : ℚ) (n : ℤ) (h1 : (n : ℚ) ≤ q + 1 / 2)
    (h2 : q + 1 / 2 < n + 1) : jsRound q = n := by
  unfold jsRound
  exact Int.floor_eq_iff.mpr ⟨h1, h2⟩

/-- A retryable error never matches the session-unusable classification, so
the backoff branch is reached whenever `isRetryable` holds. -/
theorem retryable_not_sessionUnusable (e : AnyError) (h : isRetryable e = true) :
    isSessionUnusableSignal e = false := by
  cases e with
  | apiError id serverSide =>
    simp only [isRetryable, Bool.or_eq_true, beq_iff_eq] at h
    rcases h with rfl | rfl <;> rfl
  | genError t c => simp [isRetryable] at h
  | typeError m => rfl
  | otherError m => simp [isRetryable] at h

/-- Every session-unusable signal is one of the two recognized error kinds,
so the exhausted escalation re-raises it unchanged. -/
theorem sessionUnusable_recognized (e : AnyError) (h : isSessionUnusableSignal e = true) :
    isRecognizedErrorKind e = true := by
  cases e with
  | apiError id serverSide => rfl
  | genError t c => rfl
  | typeError m => simp [isSessionUnusableSignal] at h
  | otherError m => simp [isSessionUnusableSignal] at h

/-- C5: for every conversation that is active but whose `generating` flag is
already set, `generate()` fails immediately with a `Busy` generation error,
performs no side effects and leaves the conversation state — in particular the
history — unchanged. -/
theorem generate_busy_no_state_change (c : Conversation) (args : GenerateArgs)
    (hActive : c.active = true) (hGen : c.generating = true) :
    generate c args = ⟨c, [], .error (.genError .Busy none)⟩ := by
  simp [generate, hActive, hGen]



theorem generate_busy_no_state_change_witness :
    (busyConversation.active = true ∧ busyConversation.generating = true) ∧
    generate busyConversation sampleArgs =
      ⟨busyConversation, [], .error (.genError .Busy none)⟩ :=
  ⟨⟨rfl, rfl⟩, generate_busy_no_state_change busyConversation sampleArgs rfl rfl⟩

/-- C4: for every retryable (rate-limit or transient-bad-request class)
failure number N from 1 to 9, the catch block logs, notifies, and waits
exactly `5 + 5 * N` seconds before the next attempt. -/
theorem backoff_delay_linear (e : AnyError) (n : Nat) (hR : isRetryable e = true)
    (h1 : 1 ≤ n) (h9 : n ≤ 9) :
    handleError e n =
      ([.warnLog n, .progressNotice n, .delayMs ((5 + 5 * n) * 1000)], .retry) := by
  have hne : n ≠ CONVERSATION_ERROR_RETRY_MAX_TRIES := by
    simp only [CONVERSATION_ERROR_RETRY_MAX_TRIES]
    omega
  have hU := retryable_not_sessionUnusable e hR
  have harith : (n * 5 + 5) * 1000 = (5 + 5 * n) * 1000 := by ring
  simp [handleError, hne, hU, hR, harith]

theorem backoff_delay_linear_witness :
    (isRetryable (.apiError (some "requests") true) = true ∧ 1 ≤ 3 ∧ 3 ≤ 9) ∧
    handleError (.apiError (some "requests") true) 3 =
      ([.warnLog 3, .progressNotice 3, .delayMs ((5 + 5 * 3) * 1000)], .retry) :=
  ⟨⟨rfl, by decide, by decide⟩,
   backoff_delay_linear (.apiError (some "requests") true) 3 rfl (by decide) (by decide)⟩



/-- Before the last attempt, an absorbed error always makes the catch block
fall through to the next iteration. -/
theorem handleError_absorbed_retries (e : AnyError) (t : Nat)
    (hA : isAbsorbed e = true) (ht : t ≠ CONVERSATION_ERROR_RETRY_MAX_TRIES) :
    (handleError e t).2 = .retry := by
  simp only [isAbsorbed, Bool.and_eq_true, Bool.not_eq_true'] at hA
  obtain ⟨⟨hU, hF⟩, hE⟩ := hA
  by_cases hr : isRetryable e = true
  · simp [handleError, ht, hU, hr]
  · simp [handleError, ht, hU, hF, hE, hr]

/-- On the last attempt the catch block always escalates with the
retries-exhausted error and clears the lock, whatever the error is. -/
theorem handleError_exhausted (e : AnyError) :
    handleError e CONVERSATION_ERROR_RETRY_MAX_TRIES =
      ([], .throwExhausted (exhaustedError e)) := by
  simp [handleError]

/-- The retry loop, started at try counter `tries` with `remaining` structural
fuel summing to the maximum, ends in the retries-exhausted throw (with the
lock cleared) when every attempt fails and every error before the last one is
absorbed. -/
theorem runAttempts_exhausted
    (transport : Nat → Except AnyError ChatClientResult) (errs : Nat → AnyError)
    (hfail : ∀ n, n < 10 → transport n = .error (errs n))
    (habs : ∀ n, n < 9 → isAbsorbed (errs n) = true) :
    ∀ remaining tries, remaining + tries = 10 → 0 < remaining →
      (runAttempts transport remaining tries).2 = .thrown (exhaustedError (errs 9)) false := by
  intro remaining
  induction remaining with
  | zero => intro tries hsum hpos; omega
  | succ r ih =>
    intro tries hsum _
    have htr : tries < 10 := by omega
    have hT : transport tries = .error (errs tries) := hfail _ htr
    by_cases h9 : tries = 9
    · subst h9
      have : r = 0 := by omega
      subst this
      simp only [runAttempts, hT]
      rw [show (9 : Nat) + 1 = CONVERSATION_ERROR_RETRY_MAX_TRIES from rfl,
        handleError_exhausted]
    · have habs1 : isAbsorbed (errs tries) = true := habs _ (by omega)
      have hretry : (handleError (errs tries) (tries + 1)).2 = .retry :=
        handleError_absorbed_retries _ _ habs1 (by
          simp only [CONVERSATION_ERROR_RETRY_MAX_TRIES]; omega)
      simp only [runAttempts, hT, hretry]
      exact ih (tries + 1) (by omega) (by omega)

/-- C3: when the 10th consecutive attempt fails (all earlier failures having
been absorbed by the retry policy), `generate()` stops retrying and raises a
fatal error with the `generating` lock cleared: a recognized generation/API
error is re-raised unchanged, any other error is wrapped as an `Other`
generation error with the original error preserved as its cause. -/
theorem generate_exhausted_escalation (c : Conversation) (args : GenerateArgs)
    (errs : Nat → AnyError)
    (hA : c.active = true) (hG : c.generating = false)
    (hfail : ∀ n, n < 10 → args.transport n = .error (errs n))
    (habs : ∀ n, n < 9 → isAbsorbed (errs n) = true) :
    (generate c args).outcome = .error (exhaustedError (errs 9)) ∧
    (generate c args).conv.generating = false ∧
    (isRecognizedErrorKind (errs 9) = true →
      (generate c args).outcome = .error (errs 9)) ∧
    (isRecognizedErrorKind (errs 9) = false →
      (generate c args).outcome = .error (.genError .Other (some (errs 9)))) := by
  have hloop := runAttempts_exhausted args.transport errs hfail habs
    CONVERSATION_ERROR_RETRY_MAX_TRIES 0 (by simp [CONVERSATION_ERROR_RETRY_MAX_TRIES])
    (by simp [CONVERSATION_ERROR_RETRY_MAX_TRIES])
  refine ⟨?_, ?_, ?_, ?_⟩ <;>
    simp only [generate, hA, hG, Bool.not_true, Bool.false_eq_true, if_false,
      hloop]
  · intro hrec
    simp [exhaustedError, hrec]
  · intro hrec
    simp [exhaustedError, hrec]



theorem generate_exhausted_escalation_witness :
    (sampleConversation.active = true ∧ sampleConversation.generating = false ∧
     (∀ n, n < 10 → exhaustedArgs.transport n = .error (exhaustedErrs n)) ∧
     (∀ n, n < 9 → isAbsorbed (exhaustedErrs n) = true)) ∧
    ((generate sampleConversation exhaustedArgs).outcome =
        .error (exhaustedError (exhaustedErrs 9)) ∧
     (generate sampleConversation exhaustedArgs).conv.generating = false ∧
     (isRecognizedErrorKind (exhaustedErrs 9) = true →
       (generate sampleConversation exhaustedArgs).outcome = .error (exhaustedErrs 9)) ∧
     (isRecognizedErrorKind (exhaustedErrs 9) = false →
       (generate sampleConversation exhaustedArgs).outcome =
         .error (.genError .Other (some (exhaustedErrs 9))))) :=
  ⟨⟨rfl, rfl, fun _ _ => rfl, fun n hn => by simp [exhaustedErrs, hn]; rfl⟩,
   generate_exhausted_escalation sampleConversation exhaustedArgs exhaustedErrs
     rfl rfl (fun _ _ => rfl) (fun n hn => by simp [exhaustedErrs, hn]; rfl)⟩



/-- C1 counterexample: attempts 1-9 fail with the retryable rate-limit error
and the 10th attempt fails with the quota-depleted API error — a
session-unusable signal on the final attempt. The claim says `generate()`
raises a `SessionUnusable` error even on the 10th attempt, but the code runs
the retries-exhausted escalation first, which re-raises the raw API error
unchanged; the thrown error is not a `SessionUnusable` generation error. -/
theorem generate_last_attempt_quota_counterexample :
    (generate sampleConversation lastAttemptQuotaArgs).outcome =
      .error (.apiError (some "insufficient_quota") true) ∧
    isSessionUnusableGenError (.apiError (some "insufficient_quota") true) = false :=
  ⟨rfl, rfl⟩

/-- C1 amended: when a failure signals the backing session is unusable
(quota/credit depleted, access terminated, or explicitly tagged
session-unusable), the catch block throws a fresh `SessionUnusable`
generation error immediately on failures 1 through 9; on the 10th failure the
retries-exhausted escalation runs first and re-raises the original error
unchanged (such an error is always a recognized kind), so only a failure that
was already a `SessionUnusable` generation error surfaces as one there. -/
theorem handleError_sessionUnusable_precedence (e : AnyError) (t : Nat)
    (hU : isSessionUnusableSignal e = true) :
    (1 ≤ t → t ≤ 9 →
      handleError e t = ([.warnLog t, .progressNotice t], .throwSessionUnusable)) ∧
    (t = 10 → handleError e t = ([], .throwExhausted e)) := by
  constructor
  · intro h1 h9
    have hne : t ≠ CONVERSATION_ERROR_RETRY_MAX_TRIES := by
      simp only [CONVERSATION_ERROR_RETRY_MAX_TRIES]; omega
    simp [handleError, hne, hU]
  · intro ht
    subst ht
    rw [show (10 : Nat) = CONVERSATION_ERROR_RETRY_MAX_TRIES from rfl,
      handleError_exhausted]
    simp [exhaustedError, sessionUnusable_recognized e hU]

theorem handleError_sessionUnusable_precedence_witness :
    (isSessionUnusableSignal (.apiError (some "insufficient_quota") true) = true ∧
     1 ≤ 3 ∧ 3 ≤ 9) ∧
    handleError (.apiError (some "insufficient_quota") true) 3 =
      ([.warnLog 3, .progressNotice 3], .throwSessionUnusable) :=
  ⟨⟨rfl, by decide, by decide⟩,
   (handleError_sessionUnusable_precedence (.apiError (some "insufficient_quota") true) 3
     rfl).1 (by decide) (by decide)⟩



/-- C2: evaluation of the code at the failing input. The first attempt fails
with the quota-depleted API error, so `generate()` throws the fresh
`SessionUnusable` generation error — but the throw on that path (line 336)
does not clear `this.generating`, unlike every other fatal path, so the
conversation settles with the lock still held. -/
theorem generate_sessionUnusable_leaves_lock_held :
    (generate sampleConversation firstAttemptQuotaArgs).outcome =
      .error (.genError .SessionUnusable none) ∧
    (generate sampleConversation firstAttemptQuotaArgs).conv.generating = true ∧
    (generate sampleConversation firstAttemptQuotaArgs).conv.active = true :=
  ⟨rfl, rfl, rfl⟩

/-- A byte's code point is a valid character, and converting the character
back gives the byte. -/
theorem byte_char_round_trip (v : Byte) : (Char.ofNat v.val).toNat = v.val := by
  have h : v.val.isValidChar := Or.inl (lt_trans v.isLt (by norm_num))
  simp [Char.ofNat, h]
  rfl

/-- The textual encoding of image payloads is reversible: decoding the
encoded text restores the original binary buffer. -/
theorem ImageBuffer.load_toText (b : ImageBuffer) : ImageBuffer.load b.toText = b := by
  obtain ⟨l⟩ := b
  simp only [ImageBuffer.toText, ImageBuffer.load]
  congr 1
  induction l with
  | nil => rfl
  | cons v tl ih =>
    simp only [List.map_cons, List.cons.injEq] at *
    constructor
    · apply Fin.ext
      simp only [byte_char_round_trip]
      exact Nat.mod_eq_of_lt v.isLt
    · exact ih

/-- Saving and re-loading a response message is the identity: every field is
preserved, with the image payloads going through the reversible textual
encoding. -/
theorem databaseToResponseMessage_responseMessageToDatabase (m : ResponseMessage) :
    databaseToResponseMessage (responseMessageToDatabase m) = m := by
  obtain ⟨id, type, text, images⟩ := m
  simp only [responseMessageToDatabase, databaseToResponseMessage]
  cases images with
  | none => rfl
  | some l =>
    simp only [Option.map_some', Option.some.injEq, List.map_map, ResponseMessage.mk.injEq,
      true_and]
    induction l with
    | nil => rfl
    | cons i tl ih =>
      simp only [List.map_cons, List.cons.injEq] at *
      exact ⟨by simp [Function.comp, ImageBuffer.load_toText], ih⟩

/-- C7: every history entry written to the durable store is a function of the
entry's id, input and output alone — replacing the trigger handle, reply
handle, moderation verdict (or timestamp) of an entry leaves the stored row
unchanged, so those fields are never persisted — and loading a stored entry
back (decoding the textual image payloads into binary buffers) restores the
input and output exactly. -/
theorem persisted_history_reduced_round_trip :
    (∀ (e : ChatInteraction) (trig rep : Option String)
       (mod : Option ModerationResult) (tm : Nat),
      historyEntryToDatabase
          { e with trigger := trig, reply := rep, moderation := mod, time := tm } =
        historyEntryToDatabase e) ∧
    (∀ m : ResponseMessage,
      databaseToResponseMessage (responseMessageToDatabase m) = m) ∧
    (∀ (e : ChatInteraction) (now : Nat),
      (loadHistoryEntry (historyEntryToDatabase e) now).input = e.input ∧
      (loadHistoryEntry (historyEntryToDatabase e) now).output = e.output ∧
      (loadHistoryEntry (historyEntryToDatabase e) now).trigger = none ∧
      (loadHistoryEntry (historyEntryToDatabase e) now).reply = none ∧
      (loadHistoryEntry (historyEntryToDatabase e) now).moderation = none) := by
  refine ⟨fun e trig rep mod tm => rfl,
    databaseToResponseMessage_responseMessageToDatabase,
    fun e now => ⟨rfl, ?_, rfl, rfl, rfl⟩⟩
  exact databaseToResponseMessage_responseMessageToDatabase e.output

/-- C10: the history payload broadcast to the other worker processes consists
of copies of the local entries in which only the trigger and reply handles are
nulled — id, input, output, moderation verdict and timestamp are sent
unchanged — and the local history kept in memory is the original entries with
the new one appended, untouched by the stripping. -/
theorem pushToHistory_strips_only_handles :
    (∀ (history : List ChatInteraction) (entry : ChatInteraction),
      (pushToHistory history (some entry)).1 = history ++ [entry]) ∧
    (∀ (history : List ChatInteraction) (entry : ChatInteraction),
      (pushToHistory history (some entry)).2 =
        (history ++ [entry]).map stripForBroadcast) ∧
    (∀ e : ChatInteraction,
      (stripForBroadcast e).trigger = none ∧
      (stripForBroadcast e).reply = none ∧
      (stripForBroadcast e).input = e.input ∧
      (stripForBroadcast e).output = e.output ∧
      (stripForBroadcast e).moderation = e.moderation ∧
      (stripForBroadcast e).time = e.time) :=
  ⟨fun _ _ => rfl, fun _ _ => rfl, fun _ => ⟨rfl, rfl, rfl, rfl, rfl, rfl⟩⟩



/-- Every effect the catch block emits is a loop effect. -/
theorem handleError_effects_are_loop_effects (e : AnyError) (t : Nat) :
    ∀ eff ∈ (handleError e t).1, isLoopEffect eff = true := by
  intro eff h
  unfold handleError at h
  split at h
  · simp at h
  · dsimp only at h
    split at h <;>
      [skip; split at h <;>
        [skip; split at h <;>
          [skip; split at h <;> [skip; skip]]]] <;>
    · simp only [List.mem_cons, List.mem_append, List.mem_singleton,
        List.not_mem_nil, or_false] at h
      first
        | (rcases h with rfl | rfl | rfl) <;> rfl
        | (rcases h with (rfl | rfl) | rfl) <;> rfl

/-- Every effect the retry loop emits is a loop effect: the loop never pushes
history, persists, or arms the cooldown. -/
theorem runAttempts_effects_are_loop_effects
    (transport : Nat → Except AnyError ChatClientResult) :
    ∀ remaining tries eff, eff ∈ (runAttempts transport remaining tries).1 →
      isLoopEffect eff = true := by
  intro remaining
  induction remaining with
  | zero => intro tries eff h; simp [runAttempts] at h
  | succ r ih =>
    intro tries eff h
    unfold runAttempts at h
    split at h
    · simp at h
    · dsimp only at h
      split at h
      · exact handleError_effects_are_loop_effects _ _ eff h
      · exact handleError_effects_are_loop_effects _ _ eff h
      · exact handleError_effects_are_loop_effects _ _ eff h
      · rcases List.mem_append.mp h with h1 | h1
        · exact handleError_effects_are_loop_effects _ _ eff h1
        · exact ih _ eff h1

/-- A loop effect is neither the persistence effect nor the cooldown-arm
effect. -/
theorem loop_effect_not_persist_not_arm (eff : Effect) (h : isLoopEffect eff = true) :
    isPersistEffect eff = false ∧ isArmEffect eff = false := by
  cases eff <;> simp_all [isLoopEffect, isPersistEffect, isArmEffect]


/-- The full observable shape of a `generate()` call whose retry loop
succeeds: the lock is released, the new interaction is appended, the trace is
the timer clear, the loop effects, then the success effects, and the returned
value is the interaction annotated with the consumed try counter. -/
theorem generate_success_shape (c : Conversation) (args : GenerateArgs)
    (data : ChatClientResult) (tries : Nat)
    (hA : c.active = true) (hG : c.generating = false)
    (hl : (runAttempts args.transport CONVERSATION_ERROR_RETRY_MAX_TRIES 0).2 =
      .ok data tries) :
    generate c args =
      ⟨{ active := c.active, generating := false,
         history := c.history ++ [successInteraction args data],
         cooldownBaseTime := c.cooldownBaseTime, userId := c.userId },
       .clearTimer ::
         ((runAttempts args.transport CONVERSATION_ERROR_RETRY_MAX_TRIES 0).1
           ++ successEffects c args data),
       .ok { toChatInteraction := successInteraction args data, tries := tries }⟩ := by
  rw [generate]
  simp [hA, hG, hl, pushToHistory, successInteraction, successEffects]

/-- C6: in every successful `generate()` call the new interaction is appended
to the in-memory history and the reduced history is then persisted, in that
order, before the cooldown is armed: the trace decomposes around the history
push and the persistence write, with no persistence and no cooldown-arm
anywhere before the push, and no cooldown-arm between push and persistence —
so an arming of the cooldown can only occur after both have completed. -/
theorem generate_success_persist_before_cooldown (c : Conversation)
    (args : GenerateArgs) (r : ChatGeneratedInteraction)
    (h : (generate c args).outcome = .ok r) :
    ∃ pre mid post reduced,
      (generate c args).trace =
        pre ++ Effect.pushHistory (c.history ++ [r.toChatInteraction]) :: mid
            ++ Effect.persistHistory reduced :: post ∧
      reduced = (c.history ++ [r.toChatInteraction]).map historyEntryToDatabase ∧
      (∀ e ∈ pre, isPersistEffect e = false ∧ isArmEffect e = false) ∧
      (∀ e ∈ mid, isArmEffect e = false) := by
  cases hA : c.active with
  | false => rw [generate] at h; simp [hA] at h
  | true =>
  cases hG : c.generating with
  | true => rw [generate] at h; simp [hA, hG] at h
  | false =>
  cases hl : (runAttempts args.transport CONVERSATION_ERROR_RETRY_MAX_TRIES 0).2 with
  | thrown e g =>
    rw [generate] at h
    simp [hA, hG, hl] at h
  | ok data tries =>
    have hgen := generate_success_shape c args data tries hA hG hl
    rw [hgen] at h
    simp only [Except.ok.injEq] at h
    subst h
    refine ⟨.clearTimer ::
        ((runAttempts args.transport CONVERSATION_ERROR_RETRY_MAX_TRIES 0).1 ++
          [.resetTimer, .moderationCheck data.output.text]),
      [.broadcast ((c.history ++ [successInteraction args data]).map stripForBroadcast)],
      (if args.dev then [] else [.auditInsert data.output.id])
        ++ (if c.userId ∈ args.ownerIds then []
            else [.armCooldown (cooldownTime c.cooldownBaseTime args.model args.sub)]),
      (c.history ++ [successInteraction args data]).map historyEntryToDatabase,
      ?_, rfl, ?_, ?_⟩
    · rw [hgen]
      simp [successEffects, List.append_assoc]
    · intro e he
      rcases List.mem_cons.mp he with rfl | he
      · exact ⟨rfl, rfl⟩
      rcases List.mem_append.mp he with he | he
      · exact loop_effect_not_persist_not_arm e
          (runAttempts_effects_are_loop_effects args.transport _ _ e he)
      rcases List.mem_cons.mp he with rfl | he
      · exact ⟨rfl, rfl⟩
      rcases List.mem_cons.mp he with rfl | he
      · exact ⟨rfl, rfl⟩
      · simp at he
    · intro e he
      rcases List.mem_singleton.mp he with rfl
      rfl

theorem generate_success_persist_before_cooldown_witness :
    (generate sampleConversation sampleArgs).outcome =
        .ok { toChatInteraction := successInteraction sampleArgs sampleData,
              tries := 0 } ∧
    ∃ pre mid post reduced,
      (generate sampleConversation sampleArgs).trace =
        pre ++ Effect.pushHistory (sampleConversation.history ++
              [successInteraction sampleArgs sampleData]) :: mid
            ++ Effect.persistHistory reduced :: post ∧
      reduced = (sampleConversation.history ++
        [successInteraction sampleArgs sampleData]).map historyEntryToDatabase ∧
      (∀ e ∈ pre, isPersistEffect e = false ∧ isArmEffect e = false) ∧
      (∀ e ∈ mid, isArmEffect e = false) :=
  ⟨rfl, generate_success_persist_before_cooldown sampleConversation sampleArgs
    { toChatInteraction := successInteraction sampleArgs sampleData, tries := 0 } rfl⟩

/-- C8 counterexample: `overrideNotRestrictedModel` has a configured override
duration of 10000 ms, yet for a free-tier user `cooldownTime` returns the full
110000 ms default — the override only takes effect when the model is also
premium-restricted, so "equals the model's configured override duration when
one is set" fails. -/
theorem cooldownTime_override_counterexample :
    modelCooldownTime overrideNotRestrictedModel = some 10000 ∧
    cooldownTime CONVERSATION_DEFAULT_COOLDOWN_TIME overrideNotRestrictedModel .Free =
      110000 ∧
    (110000 : ℤ) ≠ 10000 := by
  refine ⟨rfl, ?_, by decide⟩
  have hov : premiumOverrideActive overrideNotRestrictedModel = false := rfl
  simp only [cooldownTime, hov, Bool.false_eq_true, if_false]
  have htone : toneMultiplier overrideNotRestrictedModel = 1 := rfl
  rw [htone]
  exact jsRound_eq_of_bounds _ _
    (by norm_num [CONVERSATION_DEFAULT_COOLDOWN_TIME, CONVERSATION_COOLDOWN_MODIFIER])
    (by norm_num [CONVERSATION_DEFAULT_COOLDOWN_TIME, CONVERSATION_COOLDOWN_MODIFIER])

/-- C8 amended: the cooldown duration is the rounding of a product of three
factors; the model's configured override duration is the base only when it is
set (nonzero) AND the model is premium-restricted, in which case the
subscription-tier modifier is replaced by 1 but the tone multiplier still
applies; in every other case the base is the conversation's default duration
times the subscription-tier modifier times the tone multiplier. Arming the
cooldown is skipped exactly for users on the owner allow-list; otherwise the
armed duration is `cooldownTime`. -/
theorem cooldown_duration_characterization :
    (∀ (d t : ℚ) (model : ChatSettingsModel) (sub : SubscriptionType),
      premiumOverrideActive model = true → modelCooldownTime model = some t →
      cooldownTime d model sub = jsRound (t * toneMultiplier model)) ∧
    (∀ (d : ℚ) (model : ChatSettingsModel) (sub : SubscriptionType),
      premiumOverrideActive model = false →
      cooldownTime d model sub =
        jsRound (d * CONVERSATION_COOLDOWN_MODIFIER sub * toneMultiplier model)) ∧
    (∀ (c : Conversation) (args : GenerateArgs) (r : ChatGeneratedInteraction),
      (generate c args).outcome = .ok r →
      ((c.userId ∈ args.ownerIds →
         ∀ ms, Effect.armCooldown ms ∉ (generate c args).trace) ∧
       (c.userId ∉ args.ownerIds →
         Effect.armCooldown (cooldownTime c.cooldownBaseTime args.model args.sub) ∈
           (generate c args).trace))) := by
  refine ⟨?_, ?_, ?_⟩
  · intro d t model sub hov hsome
    simp [cooldownTime, hov, hsome, mul_one]
  · intro d model sub hov
    simp [cooldownTime, hov]
  · intro c args r h
    cases hA : c.active with
    | false => rw [generate] at h; simp [hA] at h
    | true =>
    cases hG : c.generating with
    | true => rw [generate] at h; simp [hA, hG] at h
    | false =>
    cases hl : (runAttempts args.transport CONVERSATION_ERROR_RETRY_MAX_TRIES 0).2 with
    | thrown e g =>
      rw [generate] at h
      simp [hA, hG, hl] at h
    | ok data tries =>
      have hgen := generate_success_shape c args data tries hA hG hl
      rw [hgen]
      constructor
      · intro howner ms hmem
        rcases List.mem_cons.mp hmem with heq | hmem
        · exact Effect.noConfusion heq
        rcases List.mem_append.mp hmem with hmem | hmem
        · have := runAttempts_effects_are_loop_effects args.transport _ _ _ hmem
          simp [isLoopEffect] at this
        · simp only [successEffects, howner, if_true, List.append_nil,
            List.mem_append, List.mem_cons, List.not_mem_nil, or_false] at hmem
          rcases hmem with (h1 | h1 | h1 | h1 | h1) | hmem
          · exact Effect.noConfusion h1
          · exact Effect.noConfusion h1
          · exact Effect.noConfusion h1
          · exact Effect.noConfusion h1
          · exact Effect.noConfusion h1
          · split at hmem <;> simp at hmem
      · intro howner
        simp [successEffects, howner]

theorem cooldown_duration_characterization_witness :
    premiumOverrideActive sampleArgs.model = false ∧
    cooldownTime CONVERSATION_DEFAULT_COOLDOWN_TIME sampleArgs.model .Free =
      jsRound (CONVERSATION_DEFAULT_COOLDOWN_TIME * CONVERSATION_COOLDOWN_MODIFIER .Free *
        toneMultiplier sampleArgs.model) ∧
    ((generate sampleConversation sampleArgs).outcome =
      .ok { toChatInteraction := successInteraction sampleArgs sampleData, tries := 0 }) ∧
    Effect.armCooldown (cooldownTime sampleConversation.cooldownBaseTime sampleArgs.model
        sampleArgs.sub) ∈ (generate sampleConversation sampleArgs).trace :=
  ⟨rfl,
   cooldown_duration_characterization.2.1 CONVERSATION_DEFAULT_COOLDOWN_TIME
     sampleArgs.model .Free rfl,
   rfl,
   (cooldown_duration_characterization.2.2 sampleConversation sampleArgs
       { toChatInteraction := successInteraction sampleArgs sampleData, tries := 0 }
       rfl).2 (List.not_mem_nil _)⟩

/-- When the assembled prompt fits the budget, the builder returns it. -/
theorem buildSummarizerPrompt_eq_ok (count : List OpenAIChatMessage → Nat)
    (sys : String) (subs : List YouTubeSubtitle)
    (h : count (summarizerMessages sys subs) ≤ 4000) :
    buildSummarizerPrompt count sys subs =
      .ok { messages := summarizerMessages sys subs,
            tokens := count (summarizerMessages sys subs) } := by
  rw [buildSummarizerPrompt]
  rw [if_neg (fun hc => absurd hc.1 (not_lt.mpr h)), if_neg (not_lt.mpr h)]

/-- When the prompt exceeds the budget and no subtitles are left, the builder
raises the `Length` generation error. -/
theorem buildSummarizerPrompt_eq_error (count : List OpenAIChatMessage → Nat)
    (sys : String) (h : 4000 < count (summarizerMessages sys [])) :
    buildSummarizerPrompt count sys [] = .error .Length := by
  rw [buildSummarizerPrompt]
  rw [if_pos ⟨h, rfl⟩]

/-- When the prompt exceeds the budget and subtitles remain, the builder
recurses on the list with its LAST element removed (`arr.pop()`). -/
theorem buildSummarizerPrompt_eq_step (count : List OpenAIChatMessage → Nat)
    (sys : String) (subs : List YouTubeSubtitle)
    (h : 4000 < count (summarizerMessages sys subs)) (hne : subs.length ≠ 0) :
    buildSummarizerPrompt count sys subs =
      buildSummarizerPrompt count sys subs.dropLast := by
  conv_lhs => rw [buildSummarizerPrompt]
  rw [if_neg (fun hc => absurd hc.2 hne), if_pos h]

/-- Truncating never changes the retained prefix: taking `m ≤ length - 1`
elements commutes with dropping the last element. -/
theorem take_dropLast_eq (l : List YouTubeSubtitle) (m : Nat) (h : m ≤ l.length - 1) :
    l.dropLast.take m = l.take m := by
  rw [List.dropLast_eq_take, List.take_take, min_eq_left h]

/-- C9 amended: the builder repeatedly drops the NEWEST (last) content chunk
— not the oldest — and re-runs the token-budget check until the prompt fits:
a successful result is the prompt over the longest prefix of the subtitles
(oldest chunks retained) whose token count fits the 4000-token budget, every
longer prefix exceeding it; an error is always the fatal `Length` generation
error and occurs exactly when no prefix — not even the empty one — fits. -/
theorem buildSummarizerPrompt_truncates_newest_first
    (count : List OpenAIChatMessage → Nat) (sys : String) :
    ∀ subs : List YouTubeSubtitle,
      (∀ p, buildSummarizerPrompt count sys subs = .ok p →
        ∃ n, n ≤ subs.length ∧
          p = { messages := summarizerMessages sys (subs.take n),
                tokens := count (summarizerMessages sys (subs.take n)) } ∧
          count (summarizerMessages sys (subs.take n)) ≤ 4000 ∧
          (∀ m, n < m → m ≤ subs.length →
            4000 < count (summarizerMessages sys (subs.take m)))) ∧
      (∀ t, buildSummarizerPrompt count sys subs = .error t →
        t = .Length ∧
        (∀ n, n ≤ subs.length →
          4000 < count (summarizerMessages sys (subs.take n)))) := by
  suffices H : ∀ (k : Nat) (subs : List YouTubeSubtitle), subs.length ≤ k →
      (∀ p, buildSummarizerPrompt count sys subs = .ok p →
        ∃ n, n ≤ subs.length ∧
          p = { messages := summarizerMessages sys (subs.take n),
                tokens := count (summarizerMessages sys (subs.take n)) } ∧
          count (summarizerMessages sys (subs.take n)) ≤ 4000 ∧
          (∀ m, n < m → m ≤ subs.length →
            4000 < count (summarizerMessages sys (subs.take m)))) ∧
      (∀ t, buildSummarizerPrompt count sys subs = .error t →
        t = .Length ∧
        (∀ n, n ≤ subs.length →
          4000 < count (summarizerMessages sys (subs.take n)))) by
    exact fun subs => H subs.length subs le_rfl
  intro k
  induction k with
  | zero =>
    intro subs hle
    have hnil : subs = [] := List.length_eq_zero.mp (Nat.le_zero.mp hle)
    subst hnil
    by_cases h0 : 4000 < count (summarizerMessages sys [])
    · rw [buildSummarizerPrompt_eq_error count sys h0]
      constructor
      · intro p hp
        exact Except.noConfusion hp
      · intro t ht
        refine ⟨(Except.error.injEq .. ▸ ht).symm, ?_⟩
        intro n hn
        have : n = 0 := Nat.le_zero.mp hn
        subst this
        exact h0
    · rw [buildSummarizerPrompt_eq_ok count sys [] (not_lt.mp h0)]
      constructor
      · intro p hp
        refine ⟨0, le_rfl, ?_, not_lt.mp h0, ?_⟩
        · exact (Except.ok.injEq .. ▸ hp).symm
        · intro m hm hm0
          omega
      · intro t ht
        exact Except.noConfusion ht
  | succ k ih =>
    intro subs hle
    by_cases hfit : count (summarizerMessages sys subs) ≤ 4000
    · rw [buildSummarizerPrompt_eq_ok count sys subs hfit]
      constructor
      · intro p hp
        refine ⟨subs.length, le_rfl, ?_, ?_, ?_⟩
        · rw [List.take_length]
          exact (Except.ok.injEq .. ▸ hp).symm
        · rw [List.take_length]; exact hfit
        · intro m hm hm2
          omega
      · intro t ht
        exact Except.noConfusion ht
    · push_neg at hfit
      by_cases hnil : subs.length = 0
      · have : subs = [] := List.length_eq_zero.mp hnil
        subst this
        rw [buildSummarizerPrompt_eq_error count sys hfit]
        constructor
        · intro p hp
          exact Except.noConfusion hp
        · intro t ht
          refine ⟨(Except.error.injEq .. ▸ ht).symm, ?_⟩
          intro n hn
          have : n = 0 := Nat.le_zero.mp hn
          subst this
          exact hfit
      · rw [buildSummarizerPrompt_eq_step count sys subs hfit hnil]
        have hlen : subs.dropLast.length ≤ k := by
          rw [List.length_dropLast]
          omega
        obtain ⟨ihOk, ihErr⟩ := ih subs.dropLast hlen
        constructor
        · intro p hp
          obtain ⟨n, hn, hpEq, hnFit, hnMax⟩ := ihOk p hp
          rw [List.length_dropLast] at hn
          have htake : subs.dropLast.take n = subs.take n := take_dropLast_eq subs n hn
          refine ⟨n, by omega, ?_, ?_, ?_⟩
          · rw [← htake]; exact hpEq
          · rw [← htake]; exact hnFit
          · intro m hm hm2
            rcases Nat.lt_or_ge m subs.length with hlt | hge
            · have hm3 : m ≤ subs.length - 1 := by omega
              have := hnMax m hm (by rw [List.length_dropLast]; omega)
              rwa [take_dropLast_eq subs m hm3] at this
            · have : m = subs.length := by omega
              subst this
              rwa [List.take_length]
        · intro t ht
          obtain ⟨hT, hAll⟩ := ihErr t ht
          refine ⟨hT, ?_⟩
          intro n hn
          rcases Nat.lt_or_ge n subs.length with hlt | hge
          · have hn1 : n ≤ subs.length - 1 := by omega
            have := hAll n (by rw [List.length_dropLast]; omega)
            rwa [take_dropLast_eq subs n hn1] at this
          · have : n = subs.length := by omega
            subst this
            rwa [List.take_length]

/-- C9 counterexample: on a two-chunk transcript whose joined prompt exceeds
the budget, the builder returns the prompt holding only the OLDEST chunk "a",
having dropped the newest chunk "b" via `arr.pop()`; the builder that drops
the oldest chunk first, as the claim words the truncation, returns the prompt
holding "b" instead — the two differ. -/
theorem buildSummarizerPrompt_drops_newest_counterexample :
    buildSummarizerPrompt lengthWeightedTokens "" twoChunkSubtitles =
      .ok { messages := summarizerMessages "" [{ content := "a" }], tokens := 2001 } ∧
    buildSummarizerPromptDropOldest lengthWeightedTokens "" twoChunkSubtitles =
      .ok { messages := summarizerMessages "" [{ content := "b" }], tokens := 2001 } ∧
    summarizerMessages "" [{ content := "a" }] ≠
      summarizerMessages "" [{ content := "b" }] := by
  refine ⟨?_, ?_, by decide⟩
  · rw [buildSummarizerPrompt]
    rw [if_neg (by decide), if_pos (by decide)]
    rw [show twoChunkSubtitles.dropLast = [{ content := "a" }] from rfl]
    rw [buildSummarizerPrompt]
    rw [if_neg (by decide), if_neg (by decide)]
    rfl
  · rw [buildSummarizerPromptDropOldest]
    rw [if_neg (by decide), if_pos (by decide)]
    rw [show twoChunkSubtitles.tail = [{ content := "b" }] from rfl]
    rw [buildSummarizerPromptDropOldest]
    rw [if_neg (by decide), if_neg (by decide)]
    rfl

theorem buildSummarizerPrompt_truncates_newest_first_witness :
    buildSummarizerPrompt lengthWeightedTokens "" twoChunkSubtitles =
      .ok { messages := summarizerMessages "" [{ content := "a" }], tokens := 2001 } ∧
    ∃ n, n ≤ twoChunkSubtitles.length ∧
      ({ messages := summarizerMessages "" [{ content := "a" }],
         tokens := 2001 } : SummaryPrompt) =
        { messages := summarizerMessages "" (twoChunkSubtitles.take n),
          tokens := lengthWeightedTokens (summarizerMessages "" (twoChunkSubtitles.take n)) } ∧
      lengthWeightedTokens (summarizerMessages "" (twoChunkSubtitles.take n)) ≤ 4000 ∧
      (∀ m, n < m → m ≤ twoChunkSubtitles.length →
        4000 < lengthWeightedTokens (summarizerMessages "" (twoChunkSubtitles.take m))) := by
  have hok : buildSummarizerPrompt lengthWeightedTokens "" twoChunkSubtitles =
      .ok { messages := summarizerMessages "" [{ content := "a" }], tokens := 2001 } := by
    rw [buildSummarizerPrompt]
    rw [if_neg (by decide), if_pos (by decide)]
    rw [show twoChunkSubtitles.dropLast = [{ content := "a" }] from rfl]
    rw [buildSummarizerPrompt]
    rw [if_neg (by decide), if_neg (by decide)]
    rfl
  exact ⟨hok,
    (buildSummarizerPrompt_truncates_newest_first lengthWeightedTokens ""
      twoChunkSubtitles).1 _ hok⟩
